import Mathlib

/-!
Verification of the subtree representation layer of an incremental parser
(`src/lib/src/subtree.h`). The C `Subtree`/`MutableSubtree` unions are a
tagged union whose discriminant is the `is_inline` bit overlapping the low
bit of the heap pointer; following the design notes of the specification the
embedding represents that tag as an explicit two-constructor inductive, with
the inline payload `SubtreeInlineData` and the heap payload `SubtreeHeapData`
translated field by field. Machine integers are modelled as `Nat`/`Int`; the
narrow bit widths of the inline form are captured by the well-formedness
predicate `SubtreeInlineData.wf`. The anonymous C union inside
`SubtreeHeapData` (non-terminal data / external scanner state / lookahead
character, discriminated by `child_count` and the symbol) is flattened into
independent fields: no accessor verified here depends on the members sharing
storage.

Declarations from headers and translation units of the repository that are
not under `src/` (`length.h`, `error_costs.h`, the reserved symbols of
`tree_sitter/api.h`, and the function bodies of `subtree.c`) are modelled
from the specification; each such definition carries a doc comment starting
with `Modelled from the spec:`.
-/

namespace TreeSitter

/-- Modelled from the spec: `length.h` is not under `src/`. The specification
describes Position/Length as "a triple (byte offset, row, column)"; the
row/column pair is the `extent` point of a `Length`. -/
structure TSPoint where
  row : Nat
  column : Nat
  deriving DecidableEq

/-- Modelled from the spec: the Length triple of `length.h` — a byte offset
together with a row/column extent. -/
structure Length where
  bytes : Nat
  extent : TSPoint
  deriving DecidableEq

/-- Modelled from the spec: the "addition operator" of the Position/Length
triple (`length_add` of `length.h`, not under `src/`), adding the byte
offsets and the extents componentwise. -/
def length_add (len1 len2 : Length) : Length :=
  { bytes := len1.bytes + len2.bytes
    extent := { row := len1.extent.row + len2.extent.row
                column := len1.extent.column + len2.extent.column } }

/-- Modelled from the spec: `cost(missing)`, a named constant of the
error-recovery cost model (`error_costs.h`, not under `src/`). The
specification leaves the exact magnitude open as a policy choice, so a
representative concrete value is fixed here; the verified claims depend only
on the sum of the two named constants, never on their magnitudes. -/
def ERROR_COST_PER_MISSING_TREE : Nat := 110

/-- Modelled from the spec: `cost(recovery)`, the second named constant of
the error-recovery cost model (`error_costs.h`, not under `src/`); the
concrete value is representative, see `ERROR_COST_PER_MISSING_TREE`. -/
def ERROR_COST_PER_RECOVERY : Nat := 100

/-- Modelled from the spec: the reserved error symbol constant
(`ts_builtin_sym_error` of `tree_sitter/api.h`, not under `src/`). Symbols
are 16-bit ids; the reserved error symbol is the all-ones id. The verified
claims depend only on symbol identity against this constant, never on its
numeric value. -/
def ts_builtin_sym_error : Nat := 65535

/-- Modelled from the spec: the reserved end-of-input symbol constant
(`ts_builtin_sym_end` of `tree_sitter/api.h`, not under `src/`); see
`ts_builtin_sym_error` for the modelling convention. -/
def ts_builtin_sym_end : Nat := 0

/-- Modelled from the spec: the storage of the Scanner-State Capsule
(`ExternalScannerState`), a union of a heap pointer `long_data` and a 24-byte
inline buffer `short_data`; bytes are modelled as `Nat` values. -/
inductive ScannerStateStorage where
  | shortData (bytes : List Nat)
  | longData (bytes : List Nat)
  deriving DecidableEq

/-- The serialized state of an external scanner (`ExternalScannerState`):
a byte buffer, stored inline when small and heap-allocated when long,
together with its `length`. The storage union is modelled by
`ScannerStateStorage`. -/
structure ExternalScannerState where
  storage : ScannerStateStorage
  length : Nat
  deriving DecidableEq

/-- Returns true when the capsule uses the inline `short_data` storage. -/
def ExternalScannerState.isInlineStored (self : ExternalScannerState) : Bool :=
  match self.storage with
  | .shortData _ => true
  | .longData _ => false

/-- Modelled from the spec: `ts_external_scanner_state_init` (defined in
`subtree.c`, not under `src/`): "copies into inline storage if length ≤ 24,
else heap-allocates"; in either mode the first `length` bytes of the given
buffer are copied. -/
def ts_external_scanner_state_init (data : List Nat) (length : Nat) :
    ExternalScannerState :=
  if length ≤ 24 then
    { storage := .shortData (data.take length), length := length }
  else
    { storage := .longData (data.take length), length := length }

/-- Modelled from the spec: `ts_external_scanner_state_data` (defined in
`subtree.c`, not under `src/`): "returns a pointer valid for length bytes
regardless of storage mode"; the pointed-to bytes are the stored buffer. -/
def ts_external_scanner_state_data (self : ExternalScannerState) : List Nat :=
  match self.storage with
  | .shortData bs => bs
  | .longData bs => bs

/-- The compact representation of a subtree (`SubtreeInlineData`), used for
small leaf nodes that are not errors and were not created by an external
scanner. The `is_inline` discriminant bit is represented by the constructor
of `Subtree`; the remaining fields are translated one for one, with their C
bit widths recorded in `SubtreeInlineData.wf`. -/
structure SubtreeInlineData where
  visible : Bool
  named : Bool
  extra : Bool
  has_changes : Bool
  is_missing : Bool
  is_keyword : Bool
  symbol : Nat
  parse_state : Nat
  padding_columns : Nat
  padding_rows : Nat
  lookahead_bytes : Nat
  padding_bytes : Nat
  size_bytes : Nat
  deriving DecidableEq

/-- The C bit widths of the inline form: `symbol` is a `uint8_t`,
`parse_state` a `uint16_t`, `padding_columns`, `padding_bytes` and
`size_bytes` are `uint8_t`, and `padding_rows` and `lookahead_bytes` are
4-bit fields. -/
def SubtreeInlineData.wf (d : SubtreeInlineData) : Prop :=
  d.symbol < 2 ^ 8 ∧ d.parse_state < 2 ^ 16 ∧ d.padding_columns < 2 ^ 8 ∧
  d.padding_rows < 2 ^ 4 ∧ d.lookahead_bytes < 2 ^ 4 ∧
  d.padding_bytes < 2 ^ 8 ∧ d.size_bytes < 2 ^ 8

instance (d : SubtreeInlineData) : Decidable d.wf := by
  unfold SubtreeInlineData.wf
  infer_instance

/-- The cached symbol and parse state of the first leaf descendant of a
non-terminal (the anonymous `first_leaf` struct of `SubtreeHeapData`). -/
structure FirstLeaf where
  symbol : Nat
  parse_state : Nat
  deriving DecidableEq

/-- The heap-allocated representation of a subtree (`SubtreeHeapData`), used
for parent nodes, external tokens, errors, and other leaf nodes whose data is
too large for the inline representation. The trailing anonymous C union
(non-terminal fields for `child_count > 0`, the scanner-state capsule for
external terminals, the `lookahead_char` for error terminals) is flattened
into independent fields, which is faithful for every accessor verified here:
none relies on the union members sharing storage. -/
structure SubtreeHeapData where
  ref_count : Nat
  padding : Length
  size : Length
  lookahead_bytes : Nat
  error_cost : Nat
  child_count : Nat
  symbol : Nat
  parse_state : Nat
  visible : Bool
  named : Bool
  extra : Bool
  fragile_left : Bool
  fragile_right : Bool
  has_changes : Bool
  has_external_tokens : Bool
  has_external_scanner_state_change : Bool
  depends_on_column : Bool
  is_missing : Bool
  is_keyword : Bool
  visible_child_count : Nat
  named_child_count : Nat
  node_count : Nat
  dynamic_precedence : Int
  repeat_depth : Nat
  production_id : Nat
  first_leaf : FirstLeaf
  external_scanner_state : ExternalScannerState
  lookahead_char : Int
  deriving DecidableEq

/-- The fundamental building block of a syntax tree: the `Subtree` union of
an inline `SubtreeInlineData` and a pointer to a `SubtreeHeapData`, with the
`is_inline` low bit of the pointer as the discriminant; represented as an
explicit tagged union. -/
inductive Subtree where
  | inlineForm (data : SubtreeInlineData)
  | heapForm (ptr : SubtreeHeapData)
  deriving DecidableEq

/-- Like `Subtree`, but mutable: the `MutableSubtree` union, whose bits are
identical to those of `Subtree` (only the pointee constness differs). -/
inductive MutableSubtree where
  | inlineForm (data : SubtreeInlineData)
  | heapForm (ptr : SubtreeHeapData)
  deriving DecidableEq

/-- `ts_subtree_symbol`: `SUBTREE_GET(self, symbol)` — the `symbol` field of
whichever representation the tag selects. -/
def ts_subtree_symbol : Subtree → Nat
  | .inlineForm d => d.symbol
  | .heapForm p => p.symbol

/-- `ts_subtree_visible`: `SUBTREE_GET(self, visible)`. -/
def ts_subtree_visible : Subtree → Bool
  | .inlineForm d => d.visible
  | .heapForm p => p.visible

/-- `ts_subtree_named`: `SUBTREE_GET(self, named)`. -/
def ts_subtree_named : Subtree → Bool
  | .inlineForm d => d.named
  | .heapForm p => p.named

/-- `ts_subtree_extra`: `SUBTREE_GET(self, extra)`. -/
def ts_subtree_extra : Subtree → Bool
  | .inlineForm d => d.extra
  | .heapForm p => p.extra

/-- `ts_subtree_has_changes`: `SUBTREE_GET(self, has_changes)`. -/
def ts_subtree_has_changes : Subtree → Bool
  | .inlineForm d => d.has_changes
  | .heapForm p => p.has_changes

/-- `ts_subtree_missing`: `SUBTREE_GET(self, is_missing)`. -/
def ts_subtree_missing : Subtree → Bool
  | .inlineForm d => d.is_missing
  | .heapForm p => p.is_missing

/-- `ts_subtree_is_keyword`: `SUBTREE_GET(self, is_keyword)`. -/
def ts_subtree_is_keyword : Subtree → Bool
  | .inlineForm d => d.is_keyword
  | .heapForm p => p.is_keyword

/-- `ts_subtree_parse_state`: `SUBTREE_GET(self, parse_state)`. -/
def ts_subtree_parse_state : Subtree → Nat
  | .inlineForm d => d.parse_state
  | .heapForm p => p.parse_state

/-- `ts_subtree_lookahead_bytes`: `SUBTREE_GET(self, lookahead_bytes)`. -/
def ts_subtree_lookahead_bytes : Subtree → Nat
  | .inlineForm d => d.lookahead_bytes
  | .heapForm p => p.lookahead_bytes

/-- `ts_subtree_leaf_symbol`: the node's own symbol for the inline form and
for heap leaves (`child_count == 0`); the cached `first_leaf.symbol` for
non-terminals. -/
def ts_subtree_leaf_symbol : Subtree → Nat
  | .inlineForm d => d.symbol
  | .heapForm p => if p.child_count = 0 then p.symbol else p.first_leaf.symbol

/-- `ts_subtree_leaf_parse_state`: the node's own parse state for the inline
form and for heap leaves; the cached `first_leaf.parse_state` for
non-terminals. -/
def ts_subtree_leaf_parse_state : Subtree → Nat
  | .inlineForm d => d.parse_state
  | .heapForm p =>
      if p.child_count = 0 then p.parse_state else p.first_leaf.parse_state

/-- `ts_subtree_padding`: for the inline form, the `Length` assembled as
`{padding_bytes, {padding_rows, padding_columns}}`; for the heap form, the
stored `padding`. -/
def ts_subtree_padding : Subtree → Length
  | .inlineForm d =>
      { bytes := d.padding_bytes
        extent := { row := d.padding_rows, column := d.padding_columns } }
  | .heapForm p => p.padding

/-- `ts_subtree_size`: for the inline form, the `Length` assembled as
`{size_bytes, {0, size_bytes}}`; for the heap form, the stored `size`. -/
def ts_subtree_size : Subtree → Length
  | .inlineForm d =>
      { bytes := d.size_bytes
        extent := { row := 0, column := d.size_bytes } }
  | .heapForm p => p.size

/-- `ts_subtree_total_size`: `length_add` of the padding and the size. -/
def ts_subtree_total_size (self : Subtree) : Length :=
  length_add (ts_subtree_padding self) (ts_subtree_size self)

/-- `ts_subtree_total_bytes`: the `bytes` component of the total size. -/
def ts_subtree_total_bytes (self : Subtree) : Nat :=
  (ts_subtree_total_size self).bytes

/-- `ts_subtree_child_count`: 0 for the inline form, the stored
`child_count` for the heap form. -/
def ts_subtree_child_count : Subtree → Nat
  | .inlineForm _ => 0
  | .heapForm p => p.child_count

/-- `ts_subtree_repeat_depth`: 0 for the inline form, the stored
`repeat_depth` for the heap form (the C reads the non-terminal union member
unconditionally; the flattened model reads the corresponding field). -/
def ts_subtree_repeat_depth : Subtree → Nat
  | .inlineForm _ => 0
  | .heapForm p => p.repeat_depth

/-- `ts_subtree_node_count`: 1 for the inline form and for heap leaves
(`child_count == 0`); the stored `node_count` otherwise. -/
def ts_subtree_node_count : Subtree → Nat
  | .inlineForm _ => 1
  | .heapForm p => if p.child_count = 0 then 1 else p.node_count

/-- `ts_subtree_visible_child_count`: the stored `visible_child_count` when
`ts_subtree_child_count` is positive (which forces the heap form), else 0. -/
def ts_subtree_visible_child_count : Subtree → Nat
  | .inlineForm _ => 0
  | .heapForm p => if 0 < p.child_count then p.visible_child_count else 0

/-- `ts_subtree_error_cost`: for a missing subtree, the fixed constant sum
`ERROR_COST_PER_MISSING_TREE + ERROR_COST_PER_RECOVERY`; otherwise 0 for the
inline form and the stored `error_cost` for the heap form. -/
def ts_subtree_error_cost (self : Subtree) : Nat :=
  if ts_subtree_missing self then
    ERROR_COST_PER_MISSING_TREE + ERROR_COST_PER_RECOVERY
  else
    match self with
    | .inlineForm _ => 0
    | .heapForm p => p.error_cost

/-- `ts_subtree_dynamic_precedence`: 0 for the inline form and for heap
leaves; the stored `dynamic_precedence` otherwise. -/
def ts_subtree_dynamic_precedence : Subtree → Int
  | .inlineForm _ => 0
  | .heapForm p => if p.child_count = 0 then 0 else p.dynamic_precedence

/-- `ts_subtree_production_id`: the stored `production_id` when
`ts_subtree_child_count` is positive, else 0. -/
def ts_subtree_production_id : Subtree → Nat
  | .inlineForm _ => 0
  | .heapForm p => if 0 < p.child_count then p.production_id else 0

/-- `ts_subtree_fragile_left`: false for the inline form, the stored flag
for the heap form. -/
def ts_subtree_fragile_left : Subtree → Bool
  | .inlineForm _ => false
  | .heapForm p => p.fragile_left

/-- `ts_subtree_fragile_right`: false for the inline form, the stored flag
for the heap form. -/
def ts_subtree_fragile_right : Subtree → Bool
  | .inlineForm _ => false
  | .heapForm p => p.fragile_right

/-- `ts_subtree_has_external_tokens`: false for the inline form, the stored
flag for the heap form. -/
def ts_subtree_has_external_tokens : Subtree → Bool
  | .inlineForm _ => false
  | .heapForm p => p.has_external_tokens

/-- `ts_subtree_has_external_scanner_state_change`: false for the inline
form, the stored flag for the heap form. -/
def ts_subtree_has_external_scanner_state_change : Subtree → Bool
  | .inlineForm _ => false
  | .heapForm p => p.has_external_scanner_state_change

/-- `ts_subtree_depends_on_column`: false for the inline form, the stored
flag for the heap form. -/
def ts_subtree_depends_on_column : Subtree → Bool
  | .inlineForm _ => false
  | .heapForm p => p.depends_on_column

/-- `ts_subtree_is_fragile`: false for the inline form; the disjunction of
`fragile_left` and `fragile_right` for the heap form. -/
def ts_subtree_is_fragile : Subtree → Bool
  | .inlineForm _ => false
  | .heapForm p => p.fragile_left || p.fragile_right

/-- `ts_subtree_is_error`: whether the subtree's symbol equals the reserved
error symbol constant. -/
def ts_subtree_is_error (self : Subtree) : Bool :=
  ts_subtree_symbol self == ts_builtin_sym_error

/-- `ts_subtree_is_eof`: whether the subtree's symbol equals the reserved
end-of-input symbol constant. -/
def ts_subtree_is_eof (self : Subtree) : Bool :=
  ts_subtree_symbol self == ts_builtin_sym_end

/-- `ts_subtree_from_mut`: reinterprets the bits of a `MutableSubtree` as a
`Subtree` (the C copies the `data` member of the union). -/
def ts_subtree_from_mut : MutableSubtree → Subtree
  | .inlineForm d => .inlineForm d
  | .heapForm p => .heapForm p

/-- `ts_subtree_to_mut_unsafe`: reinterprets the bits of a `Subtree` as a
`MutableSubtree` (the C copies the `data` member of the union). -/
def ts_subtree_to_mut : Subtree → MutableSubtree
  | .inlineForm d => .inlineForm d
  | .heapForm p => .heapForm p

/-- Modelled from the spec: the bookkeeping of `ts_subtree_new_node` (defined
in `subtree.c`, which is not under `src/`). Per the construction table of the
specification the node is always heap form, records the number of children
as its `child_count`, computes "node_count as 1+Σchildren" of the children's
node counts, "visible/named child counts by filtering", and propagates
`has_external_tokens` and `depends_on_column` as the logical OR of the
children. Header fields not consulted by any verified claim (spans, error
cost, precedence, the first-leaf cache) are zero-initialized here. -/
def ts_subtree_new_node (symbol : Nat) (children : List Subtree)
    (production_id : Nat) : SubtreeHeapData :=
  { ref_count := 1
    padding := { bytes := 0, extent := { row := 0, column := 0 } }
    size := { bytes := 0, extent := { row := 0, column := 0 } }
    lookahead_bytes := 0
    error_cost := 0
    child_count := children.length
    symbol := symbol
    parse_state := 0
    visible := false
    named := false
    extra := false
    fragile_left := false
    fragile_right := false
    has_changes := false
    has_external_tokens := children.any ts_subtree_has_external_tokens
    has_external_scanner_state_change := false
    depends_on_column := children.any ts_subtree_depends_on_column
    is_missing := false
    is_keyword := false
    visible_child_count := (children.filter ts_subtree_visible).length
    named_child_count := (children.filter ts_subtree_named).length
    node_count := 1 + (children.map ts_subtree_node_count).sum
    dynamic_precedence := 0
    repeat_depth := 0
    production_id := production_id
    first_leaf := { symbol := 0, parse_state := 0 }
    external_scanner_state := { storage := .shortData [], length := 0 }
    lookahead_char := 0 }

/-- The heap-form subtree carrying the same semantic values as a given
inline-form subtree: same symbol, flags, parse state, lookahead bytes, the
padding and size `Length` values the inline fields denote, zero children,
and the defaults an inline-representable leaf implies (no error cost, no
fragility, no external tokens, no column dependence). -/
def inlineHeapTwin (d : SubtreeInlineData) : SubtreeHeapData :=
  { ref_count := 1
    padding := { bytes := d.padding_bytes
                 extent := { row := d.padding_rows, column := d.padding_columns } }
    size := { bytes := d.size_bytes
              extent := { row := 0, column := d.size_bytes } }
    lookahead_bytes := d.lookahead_bytes
    error_cost := 0
    child_count := 0
    symbol := d.symbol
    parse_state := d.parse_state
    visible := d.visible
    named := d.named
    extra := d.extra
    fragile_left := false
    fragile_right := false
    has_changes := d.has_changes
    has_external_tokens := false
    has_external_scanner_state_change := false
    depends_on_column := false
    is_missing := d.is_missing
    is_keyword := d.is_keyword
    visible_child_count := 0
    named_child_count := 0
    node_count := 0
    dynamic_precedence := 0
    repeat_depth := 0
    production_id := 0
    first_leaf := { symbol := 0, parse_state := 0 }
    external_scanner_state := { storage := .shortData [], length := 0 }
    lookahead_char := 0 }

/-- Agreement of every accessor named by the inline/heap equivalence
contract between two subtrees. -/
def accessorsAgree (i p : Subtree) : Prop :=
  ts_subtree_symbol i = ts_subtree_symbol p ∧
  ts_subtree_visible i = ts_subtree_visible p ∧
  ts_subtree_named i = ts_subtree_named p ∧
  ts_subtree_extra i = ts_subtree_extra p ∧
  ts_subtree_parse_state i = ts_subtree_parse_state p ∧
  ts_subtree_size i = ts_subtree_size p ∧
  ts_subtree_padding i = ts_subtree_padding p ∧
  ts_subtree_lookahead_bytes i = ts_subtree_lookahead_bytes p ∧
  ts_subtree_child_count i = ts_subtree_child_count p ∧
  ts_subtree_error_cost i = ts_subtree_error_cost p ∧
  ts_subtree_dynamic_precedence i = ts_subtree_dynamic_precedence p ∧
  ts_subtree_production_id i = ts_subtree_production_id p ∧
  ts_subtree_fragile_left i = ts_subtree_fragile_left p ∧
  ts_subtree_fragile_right i = ts_subtree_fragile_right p ∧
  ts_subtree_is_fragile i = ts_subtree_is_fragile p ∧
  ts_subtree_has_external_tokens i = ts_subtree_has_external_tokens p ∧
  ts_subtree_has_external_scanner_state_change i
    = ts_subtree_has_external_scanner_state_change p ∧
  ts_subtree_depends_on_column i = ts_subtree_depends_on_column p ∧
  ts_subtree_missing i = ts_subtree_missing p ∧
  ts_subtree_is_keyword i = ts_subtree_is_keyword p ∧
  ts_subtree_has_changes i = ts_subtree_has_changes p

/-- A sample well-formed inline subtree payload used by witnesses. -/
def sampleInlineData : SubtreeInlineData :=
  { visible := true
    named := true
    extra := false
    has_changes := false
    is_missing := false
    is_keyword := false
    symbol := 7
    parse_state := 12
    padding_columns := 3
    padding_rows := 1
    lookahead_bytes := 2
    padding_bytes := 5
    size_bytes := 9 }

/-- A sample heap subtree payload used by witnesses: a missing leaf whose
stored `error_cost` field disagrees with the missing-tree constant sum. -/
def sampleMissingHeapData : SubtreeHeapData :=
  { (inlineHeapTwin sampleInlineData) with is_missing := true, error_cost := 42 }

/-- A sample non-terminal heap payload used by witnesses: two children and a
stored `node_count` of 3. -/
def sampleParentHeapData : SubtreeHeapData :=
  ts_subtree_new_node 30
    [Subtree.inlineForm sampleInlineData,
     Subtree.heapForm (inlineHeapTwin sampleInlineData)] 4

/-- C1: an inline-form subtree and a heap-form subtree constructed with
equivalent semantic values (same symbol, flags, size, padding, parse state,
zero children) return identical results under every accessor of the
contract's set, for every field assignment the inline form can hold; in
particular `ts_subtree_size` and `ts_subtree_padding` agree between the two
forms. -/
theorem inline_heap_accessor_agreement (d : SubtreeInlineData) (hwf : d.wf) :
    accessorsAgree (Subtree.inlineForm d) (Subtree.heapForm (inlineHeapTwin d)) := by
  clear hwf
  unfold accessorsAgree
  refine ⟨rfl, rfl, rfl, rfl, rfl, rfl, rfl, rfl, rfl, ?_, rfl, rfl, rfl, rfl,
    rfl, rfl, rfl, rfl, rfl, rfl, rfl⟩
  cases hm : d.is_missing <;>
    simp [ts_subtree_error_cost, ts_subtree_missing, inlineHeapTwin, hm]

theorem inline_heap_accessor_agreement_witness :
    sampleInlineData.wf ∧
    accessorsAgree (Subtree.inlineForm sampleInlineData)
      (Subtree.heapForm (inlineHeapTwin sampleInlineData)) :=
  ⟨by decide, inline_heap_accessor_agreement sampleInlineData (by decide)⟩

/-- C2: for every missing subtree (inline or heap form) the error cost is
exactly `ERROR_COST_PER_MISSING_TREE + ERROR_COST_PER_RECOVERY`, independent
of any stored `error_cost` field; for every non-missing inline subtree it is
0, and for every non-missing heap subtree it is the stored `error_cost`. -/
theorem error_cost_spec :
    (∀ s : Subtree, ts_subtree_missing s = true →
      ts_subtree_error_cost s
        = ERROR_COST_PER_MISSING_TREE + ERROR_COST_PER_RECOVERY) ∧
    (∀ d : SubtreeInlineData, d.is_missing = false →
      ts_subtree_error_cost (Subtree.inlineForm d) = 0) ∧
    (∀ p : SubtreeHeapData, p.is_missing = false →
      ts_subtree_error_cost (Subtree.heapForm p) = p.error_cost) := by
  refine ⟨fun s hs => ?_, fun d hd => ?_, fun p hp => ?_⟩
  · simp [ts_subtree_error_cost, hs]
  · simp [ts_subtree_error_cost, ts_subtree_missing, hd]
  · simp [ts_subtree_error_cost, ts_subtree_missing, hp]

theorem error_cost_spec_witness :
    (ts_subtree_missing (Subtree.heapForm sampleMissingHeapData) = true ∧
      ts_subtree_error_cost (Subtree.heapForm sampleMissingHeapData)
        = ERROR_COST_PER_MISSING_TREE + ERROR_COST_PER_RECOVERY) ∧
    (sampleInlineData.is_missing = false ∧
      ts_subtree_error_cost (Subtree.inlineForm sampleInlineData) = 0) ∧
    ((inlineHeapTwin sampleInlineData).is_missing = false ∧
      ts_subtree_error_cost (Subtree.heapForm (inlineHeapTwin sampleInlineData))
        = (inlineHeapTwin sampleInlineData).error_cost) :=
  ⟨⟨by decide, error_cost_spec.1 _ (by decide)⟩,
   ⟨by decide, error_cost_spec.2.1 _ (by decide)⟩,
   ⟨by decide, error_cost_spec.2.2 _ (by decide)⟩⟩

/-- C3: for every subtree, the total span equals padding plus size under
`length_add`, and `ts_subtree_total_bytes` is the bytes component of that
sum. -/
theorem total_size_spec (s : Subtree) :
    ts_subtree_total_size s
      = length_add (ts_subtree_padding s) (ts_subtree_size s) ∧
    ts_subtree_total_bytes s
      = (length_add (ts_subtree_padding s) (ts_subtree_size s)).bytes :=
  ⟨rfl, rfl⟩

/-- C4: a subtree with children is never inline: every inline-form subtree
has child count 0, a positive child count forces the heap form, and the
child-dependent accessors (`visible_child_count`, `production_id`,
`dynamic_precedence`, `repeat_depth`) return their zero defaults on inline
subtrees. -/
theorem child_count_inline_spec :
    (∀ d : SubtreeInlineData,
      ts_subtree_child_count (Subtree.inlineForm d) = 0) ∧
    (∀ s : Subtree, 0 < ts_subtree_child_count s →
      ∃ p : SubtreeHeapData, s = Subtree.heapForm p) ∧
    (∀ d : SubtreeInlineData,
      ts_subtree_visible_child_count (Subtree.inlineForm d) = 0 ∧
      ts_subtree_production_id (Subtree.inlineForm d) = 0 ∧
      ts_subtree_dynamic_precedence (Subtree.inlineForm d) = 0 ∧
      ts_subtree_repeat_depth (Subtree.inlineForm d) = 0) := by
  refine ⟨fun d => rfl, fun s hs => ?_, fun d => ⟨rfl, rfl, rfl, rfl⟩⟩
  cases s with
  | inlineForm d => simp [ts_subtree_child_count] at hs
  | heapForm p => exact ⟨p, rfl⟩

theorem child_count_inline_spec_witness :
    0 < ts_subtree_child_count (Subtree.heapForm sampleParentHeapData) ∧
    ∃ p : SubtreeHeapData,
      Subtree.heapForm sampleParentHeapData = Subtree.heapForm p :=
  ⟨by decide, child_count_inline_spec.2.1 _ (by decide)⟩

/-- C5: the leaf-specific accessors return the node's own symbol and parse
state when the node is a leaf (inline form, or heap form with zero
children), and the cached `first_leaf` descendant's symbol and parse state
when it is a non-terminal. -/
theorem leaf_accessor_spec :
    (∀ d : SubtreeInlineData,
      ts_subtree_leaf_symbol (Subtree.inlineForm d) = d.symbol ∧
      ts_subtree_leaf_parse_state (Subtree.inlineForm d) = d.parse_state) ∧
    (∀ p : SubtreeHeapData, p.child_count = 0 →
      ts_subtree_leaf_symbol (Subtree.heapForm p) = p.symbol ∧
      ts_subtree_leaf_parse_state (Subtree.heapForm p) = p.parse_state) ∧
    (∀ p : SubtreeHeapData, 0 < p.child_count →
      ts_subtree_leaf_symbol (Subtree.heapForm p) = p.first_leaf.symbol ∧
      ts_subtree_leaf_parse_state (Subtree.heapForm p)
        = p.first_leaf.parse_state) := by
  refine ⟨fun d => ⟨rfl, rfl⟩, fun p hp => ?_, fun p hp => ?_⟩
  · simp [ts_subtree_leaf_symbol, ts_subtree_leaf_parse_state, hp]
  · simp [ts_subtree_leaf_symbol, ts_subtree_leaf_parse_state, Nat.pos_iff_ne_zero.mp hp]

theorem leaf_accessor_spec_witness :
    ((inlineHeapTwin sampleInlineData).child_count = 0 ∧
      ts_subtree_leaf_symbol (Subtree.heapForm (inlineHeapTwin sampleInlineData))
        = (inlineHeapTwin sampleInlineData).symbol ∧
      ts_subtree_leaf_parse_state
          (Subtree.heapForm (inlineHeapTwin sampleInlineData))
        = (inlineHeapTwin sampleInlineData).parse_state) ∧
    (0 < sampleParentHeapData.child_count ∧
      ts_subtree_leaf_symbol (Subtree.heapForm sampleParentHeapData)
        = sampleParentHeapData.first_leaf.symbol ∧
      ts_subtree_leaf_parse_state (Subtree.heapForm sampleParentHeapData)
        = sampleParentHeapData.first_leaf.parse_state) :=
  ⟨⟨by decide, leaf_accessor_spec.2.1 _ (by decide)⟩,
   ⟨by decide, leaf_accessor_spec.2.2 _ (by decide)⟩⟩

/-- C6: a scanner-state buffer of length at most 24 bytes is stored inline
and a longer one is heap-allocated — the threshold is exactly 24 — and the
data pointer is valid for `length` bytes in either storage mode: when the
input buffer holds at least `length` bytes, the stored data is exactly its
`length`-byte prefix. -/
theorem external_scanner_state_spec (data : List Nat) (len : Nat) :
    ((ts_external_scanner_state_init data len).isInlineStored = true ↔
      len ≤ 24) ∧
    (ts_external_scanner_state_init data len).length = len ∧
    (len ≤ data.length →
      ts_external_scanner_state_data (ts_external_scanner_state_init data len)
        = data.take len ∧
      (ts_external_scanner_state_data
          (ts_external_scanner_state_init data len)).length = len) := by
  refine ⟨?_, ?_, fun hlen => ⟨?_, ?_⟩⟩
  · by_cases h : len ≤ 24 <;>
      simp [ts_external_scanner_state_init,
        ExternalScannerState.isInlineStored, h]
  · by_cases h : len ≤ 24 <;> simp [ts_external_scanner_state_init, h]
  · by_cases h : len ≤ 24 <;>
      simp [ts_external_scanner_state_init, ts_external_scanner_state_data, h]
  · by_cases h : len ≤ 24 <;>
      simp [ts_external_scanner_state_init, ts_external_scanner_state_data, h,
        List.length_take, Nat.min_eq_left hlen]

theorem external_scanner_state_spec_witness :
    (((ts_external_scanner_state_init (List.replicate 30 1) 24).isInlineStored
        = true ↔ (24 : Nat) ≤ 24) ∧
      (ts_external_scanner_state_init (List.replicate 30 1) 24).length = 24 ∧
      ((24 : Nat) ≤ (List.replicate 30 (1 : Nat)).length →
        ts_external_scanner_state_data
            (ts_external_scanner_state_init (List.replicate 30 1) 24)
          = (List.replicate 30 1).take 24 ∧
        (ts_external_scanner_state_data
            (ts_external_scanner_state_init (List.replicate 30 1) 24)).length
          = 24)) ∧
    (ts_external_scanner_state_init (List.replicate 30 1) 25).isInlineStored
      = false :=
  ⟨external_scanner_state_spec (List.replicate 30 1) 24, by decide⟩

/-- C7: `ts_subtree_node_count` returns 1 for every leaf subtree (inline
form, or heap form with zero children); for every non-terminal it returns
the stored `node_count`, and a node built by the construction operation
stores 1 plus the sum of its children's node counts. -/
theorem node_count_spec :
    (∀ d : SubtreeInlineData,
      ts_subtree_node_count (Subtree.inlineForm d) = 1) ∧
    (∀ p : SubtreeHeapData, p.child_count = 0 →
      ts_subtree_node_count (Subtree.heapForm p) = 1) ∧
    (∀ p : SubtreeHeapData, 0 < p.child_count →
      ts_subtree_node_count (Subtree.heapForm p) = p.node_count) ∧
    (∀ (symbol production_id : Nat) (children : List Subtree),
      (ts_subtree_new_node symbol children production_id).node_count
        = 1 + (children.map ts_subtree_node_count).sum ∧
      (children ≠ [] →
        ts_subtree_node_count
            (Subtree.heapForm (ts_subtree_new_node symbol children production_id))
          = 1 + (children.map ts_subtree_node_count).sum)) := by
  refine ⟨fun d => rfl, fun p hp => ?_, fun p hp => ?_,
    fun symbol production_id children => ⟨rfl, fun hne => ?_⟩⟩
  · simp [ts_subtree_node_count, hp]
  · simp [ts_subtree_node_count, Nat.pos_iff_ne_zero.mp hp]
  · have hlen : children.length ≠ 0 := fun h => hne (List.length_eq_zero.mp h)
    simp [ts_subtree_node_count, ts_subtree_new_node, hlen]

theorem node_count_spec_witness :
    (0 < sampleParentHeapData.child_count ∧
      ts_subtree_node_count (Subtree.heapForm sampleParentHeapData)
        = sampleParentHeapData.node_count) ∧
    ts_subtree_node_count (Subtree.heapForm sampleParentHeapData) = 3 :=
  ⟨⟨by decide, node_count_spec.2.2.1 _ (by decide)⟩, by decide⟩

/-- C8: `ts_subtree_is_error` holds exactly when the subtree's symbol equals
the reserved error symbol constant, and `ts_subtree_is_eof` exactly when it
equals the reserved end-of-input symbol constant, in either
representation. -/
theorem is_error_is_eof_spec (s : Subtree) :
    (ts_subtree_is_error s = true ↔
      ts_subtree_symbol s = ts_builtin_sym_error) ∧
    (ts_subtree_is_eof s = true ↔
      ts_subtree_symbol s = ts_builtin_sym_end) := by
  constructor <;> simp [ts_subtree_is_error, ts_subtree_is_eof]

/-- C9: every inline-form subtree's size has row 0 and column equal to its
byte count, both read from the single `size_bytes` field, while its padding
carries independent byte, row, and column components from the three padding
fields. -/
theorem inline_size_shape_spec (d : SubtreeInlineData) :
    (ts_subtree_size (Subtree.inlineForm d)).extent.row = 0 ∧
    (ts_subtree_size (Subtree.inlineForm d)).extent.column = d.size_bytes ∧
    (ts_subtree_size (Subtree.inlineForm d)).bytes = d.size_bytes ∧
    ts_subtree_padding (Subtree.inlineForm d)
      = { bytes := d.padding_bytes
          extent := { row := d.padding_rows, column := d.padding_columns } } :=
  ⟨rfl, rfl, rfl, rfl⟩

/-- C10: converting between the shared and mutable views is an identical
round trip in both directions, so neither conversion changes any
accessor-observable value. -/
theorem from_mut_to_mut_roundtrip :
    (∀ s : Subtree, ts_subtree_from_mut (ts_subtree_to_mut s) = s) ∧
    (∀ m : MutableSubtree,
      ts_subtree_to_mut (ts_subtree_from_mut m) = m) := by
  constructor <;> intro x <;> cases x <;> rfl

end TreeSitter
